import Mathlib

/-!
Shallow embedding of the control-input normalization and trial-evaluation core of
the CARLA manual-control client (src/ReseachCode/manual_control_steeringwheel_Research_Base.py
and src/NSTICampCode/carlatest with time trial copy.py).

Conventions of the embedding:
* Python floats are modelled as exact numbers: real numbers `ℝ` for the response-curve
  pipeline (which uses `math.tan` and `math.log10`) and rationals `ℚ` for the trial
  manager (plain field arithmetic), so that trial-manager runs evaluate by `decide`.
* A Python expression that can raise an uncaught exception (`IndexError` from list
  indexing, `ValueError` from `math.log10` on a non-positive argument, `TypeError`
  from subtracting `None`) is modelled in `Option`, with `none` meaning the exception.
* `time.time()` calls are modelled by passing the current time `now` explicitly.
* `float('inf')` (the initial `min_speed_during_run`) is modelled as `none` in an
  `Option ℚ` field, with `minWithInf` reproducing `min(inf, s) = s`.
-/

/-- Embeds `carla.VehicleControl`: the fields read and written by
`DualControl` in manual_control_steeringwheel_Research_Base.py.
A fresh `carla.VehicleControl()` is `ctrl0` below. -/
structure VehicleControl where
  throttle : ℝ
  steer : ℝ
  brake : ℝ
  hand_brake : Bool
  reverse : Bool
  manual_gear_shift : Bool
  gear : ℤ

/-- A fresh `carla.VehicleControl()`: all analog values 0, all flags false, gear 0. -/
noncomputable def ctrl0 : VehicleControl :=
  { throttle := 0, steer := 0, brake := 0, hand_brake := false, reverse := false,
    manual_gear_shift := false, gear := 0 }

/-- The slice of `DualControl.axis_mapping` consumed by `_parse_vehicle_wheel`
(lines 458-480): the optional joystick axis index for each of the three analog
controls, and the three damping coefficients
(`self.steering_damping`, `self.throttle_damping`, `self.brake_damping`). -/
structure AxisMapping where
  steering : Option ℕ
  throttle : Option ℕ
  brake : Option ℕ
  steering_damping : ℝ
  throttle_damping : ℝ
  brake_damping : ℝ

/-- Embeds `math.log10`: defined for positive arguments, raises `ValueError`
(modelled as `none`) otherwise. -/
noncomputable def mathLog10 (a : ℝ) : Option ℝ :=
  if 0 < a then some (Real.logb 10 a) else none

/-- Embeds `DualControl._parse_vehicle_wheel` (lines 458-480).
`js` is the list `jsInputs` of the device's axis values (so `js.length` is
`self.joystick.get_numaxes()`); indexing `jsInputs[axis]` out of range raises
`IndexError`, modelled by `List.get?` returning `none`.  When the guard
`steering_axis is not None and throttle_axis is not None and brake_axis is not None`
fails, the control is left unchanged.  `steerCmd` is not clamped in the source;
`throttleCmd` and `brakeCmd` are clamped by `max(0, min(1, _))`.  In neutral mode
the throttle written to the control is forced to `0.0`. -/
noncomputable def parseVehicleWheel (js : List ℝ) (cfg : AxisMapping)
    (neutralMode : Bool) (c : VehicleControl) : Option VehicleControl :=
  match cfg.steering, cfg.throttle, cfg.brake with
  | some steering_axis, some throttle_axis, some brake_axis =>
    match js.get? steering_axis, js.get? throttle_axis, js.get? brake_axis with
    | some sx, some tx, some bx =>
      match mathLog10 (-0.7 * tx + 1.4), mathLog10 (-0.7 * bx + 1.4) with
      | some lt, some lb =>
        let steerCmd := cfg.steering_damping * Real.tan (1.1 * sx)
        let throttleCmd := max 0 (min 1 (cfg.throttle_damping * (1.6 + (2.05 * lt - 1.2) / 0.92)))
        let brakeCmd := max 0 (min 1 (cfg.brake_damping * (1.6 + (2.05 * lb - 1.2) / 0.92)))
        some { c with steer := steerCmd, brake := brakeCmd,
                      throttle := if neutralMode then 0 else throttleCmd }
      | _, _ => none
    | _, _, _ => none
  | _, _, _ => some c

/-- Modelled from the spec:`steer(x, d) = clamp(d · tan(1.1 · x), -1, 1)` (§4.1).
This is the SPEC-side steering curve, to be compared with the one computed by
`parseVehicleWheel`; `clamp(v, -1, 1)` is `max (-1) (min 1 v)`. -/
noncomputable def steer_spec (x d : ℝ) : ℝ :=
  max (-1) (min 1 (d * Real.tan (1.1 * x)))

/-- Modelled from the spec:`pedal(x, d) = clamp(d · (1.6 + (2.05·log10(−0.7·x + 1.4)
− 1.2) / 0.92), 0, 1)` (§4.1).  SPEC-side pedal curve, for comparison with
`parseVehicleWheel`; `clamp(v, 0, 1)` is `max 0 (min 1 v)`. -/
noncomputable def pedal_spec (x d : ℝ) : ℝ :=
  max 0 (min 1 (d * (1.6 + (2.05 * Real.logb 10 (-0.7 * x + 1.4) - 1.2) / 0.92)))

/-- Embeds `round(x, 1)` as used on the steer cache in `_parse_vehicle_keys`
(line 454): rounding to one decimal place.  (Python rounds exact halves to even;
the claims never distinguish a half-way value, so ordinary rounding is used.) -/
noncomputable def pyRound1 (x : ℝ) : ℝ :=
  (round (10 * x) : ℤ) / 10

/-- The pressed-key snapshot read by `_parse_vehicle_keys`. -/
structure KeyState where
  up : Bool
  down : Bool
  left : Bool
  right : Bool
  w : Bool
  a : Bool
  s : Bool
  d : Bool
  space : Bool

/-- Embeds `DualControl._parse_vehicle_keys` (lines 441-456): keyboard throttle
(forced to 0 in neutral mode), incremental steering cache clamped to
`[-0.7, 0.7]` and rounded to one decimal, brake, hand brake.  Returns the new
steer cache together with the updated control. -/
noncomputable def parseVehicleKeys (keys : KeyState) (milliseconds : ℝ)
    (neutralMode : Bool) (steerCache : ℝ) (c : VehicleControl) : ℝ × VehicleControl :=
  let throttle : ℝ := if neutralMode then 0 else if keys.up || keys.w then 1 else 0
  let steerIncrement := 5e-4 * milliseconds
  let cache :=
    if keys.left || keys.a then steerCache - steerIncrement
    else if keys.right || keys.d then steerCache + steerIncrement
    else 0
  let cache := min 0.7 (max (-0.7) cache)
  let brake : ℝ := if keys.down || keys.s then 1 else 0
  (cache, { c with throttle := throttle, steer := pyRound1 cache, brake := brake,
                   hand_brake := keys.space })

/-- Embeds line 336 of `parse_events`: `self._control.reverse = self._control.gear < 0`. -/
def setReverseFromGear (c : VehicleControl) : VehicleControl :=
  { c with reverse := decide (c.gear < 0) }

/-- Embeds the per-frame vehicle branch of `DualControl.parse_events`
(lines 331-339, autopilot off, player is a vehicle): parse the keyboard, then,
if a joystick is present (`joystick = some axes`), parse the wheel, then set
`reverse` from the sign of `gear`; the resulting control is the one passed to
`world.player.apply_control`.  `none` propagates an uncaught exception from the
wheel path, in which case no control is applied this frame. -/
noncomputable def parseEventsVehicleFrame (keys : KeyState) (milliseconds : ℝ)
    (joystick : Option (List ℝ)) (cfg : AxisMapping) (neutralMode : Bool)
    (steerCache : ℝ) (c : VehicleControl) : Option (ℝ × VehicleControl) :=
  let kc := parseVehicleKeys keys milliseconds neutralMode steerCache c
  match joystick with
  | none => some (kc.1, setReverseFromGear kc.2)
  | some js =>
    (parseVehicleWheel js cfg neutralMode kc.2).map fun c2 => (kc.1, setReverseFromGear c2)

/-- The three transmission modes of `DualControl.transmission_mode`. -/
inductive TransmissionMode where
  | automatic
  | manual
  | automatic_shifter
deriving DecidableEq

/-- The transmission-related state of `DualControl`: `self.transmission_mode`,
`self._shifter_mode`, `self._neutral_mode`, and the vehicle control it mutates. -/
structure DualControlState where
  transmission_mode : TransmissionMode
  shifter_mode : Bool
  neutral_mode : Bool
  control : VehicleControl

/-- Embeds the `K_m` branch of `DualControl._handle_key` (lines 406-419), the
cycle-transmission-mode command: automatic → manual (manual_gear_shift on) →
automatic_shifter (shifter mode on, neutral off, manual shift off) → automatic.
The gear is never touched by this handler. -/
def cycleTransmissionMode (st : DualControlState) : DualControlState :=
  match st.transmission_mode with
  | .automatic =>
    { st with transmission_mode := .manual,
              control := { st.control with manual_gear_shift := true } }
  | .manual =>
    { st with transmission_mode := .automatic_shifter,
              shifter_mode := true, neutral_mode := false,
              control := { st.control with manual_gear_shift := false } }
  | .automatic_shifter =>
    { st with transmission_mode := .automatic,
              shifter_mode := false, neutral_mode := false,
              control := { st.control with manual_gear_shift := false } }

/-- The summary record built by `TrialManager.calculate_results` into
`self.trial_results` (lines 957-962). -/
structure TrialResults where
  trial_duration : ℚ
  avg_speed : ℚ
  avg_violation_duration : ℚ
  violation_count : ℕ
deriving DecidableEq

/-- State of `TrialManager` (manual_control_steeringwheel_Research_Base.py,
lines 896-981).  `max_speed` is the configured speed limit; the optional `ℚ`
time fields are `None` until set; `violation_durations` collects the pairs
`(violation_duration, speed)` appended by `track_speed`; `min_speed_during_run`
is `none` while still `float('inf')`. -/
structure TrialManager where
  trial_active : Bool
  start_time : Option ℚ
  end_time : Option ℚ
  violation_start : Option ℚ
  violation_durations : List (ℚ × ℚ)
  violation_count : ℕ
  max_speed : ℚ
  trial_results : Option TrialResults
  display_results : Bool
  start_screen : Bool
  current_speed : ℚ
  speeding_warning : Bool
  max_speed_during_run : ℚ
  min_speed_during_run : Option ℚ
deriving DecidableEq

/-- Embeds `min(self.min_speed_during_run, speed)` where the field starts as
`float('inf')` (`none`): the minimum of infinity and `speed` is `speed`. -/
def minWithInf (m : Option ℚ) (speed : ℚ) : Option ℚ :=
  match m with
  | none => some speed
  | some v => some (min v speed)

/-- The state of a fresh `TrialManager.__init__` (lines 896-914), with the
default `speed_limit` of 45.0 from `trial_settings`. -/
def tmInit : TrialManager :=
  { trial_active := false, start_time := none, end_time := none,
    violation_start := none, violation_durations := [], violation_count := 0,
    max_speed := 45, trial_results := none, display_results := false,
    start_screen := false, current_speed := 0, speeding_warning := false,
    max_speed_during_run := 0, min_speed_during_run := none }

/-- Embeds `TrialManager.initiate_trial` (lines 934-944); `now` is the
`time.time()` it reads. -/
def initiate_trial (now : ℚ) (tm : TrialManager) : TrialManager :=
  { tm with trial_active := true, start_time := some now, violation_start := none,
            violation_durations := [], violation_count := 0,
            display_results := false, start_screen := false,
            speeding_warning := false, max_speed_during_run := 0,
            min_speed_during_run := none }

/-- Embeds `TrialManager.track_speed` (lines 964-981); `now` is the
`time.time()` read when opening or closing a violation interval. -/
def track_speed (speed now : ℚ) (tm : TrialManager) : TrialManager :=
  let tm := { tm with current_speed := speed }
  if tm.trial_active then
    let tm := { tm with max_speed_during_run := max tm.max_speed_during_run speed,
                        min_speed_during_run := minWithInf tm.min_speed_during_run speed }
    if tm.max_speed < speed then
      match tm.violation_start with
      | none =>
        { tm with violation_start := some now, violation_count := tm.violation_count + 1,
                  speeding_warning := true }
      | some _ => { tm with speeding_warning := true }
    else
      match tm.violation_start with
      | some vs =>
        { tm with violation_durations := tm.violation_durations ++ [(now - vs, speed)],
                  violation_start := none, speeding_warning := false }
      | none => { tm with speeding_warning := false }
  else tm

/-- Embeds `TrialManager.calculate_results` (lines 952-962).  `none` models the
`TypeError` of `self.end_time - self.start_time` when either time is still `None`.
Note the source's `avg_speed` averages the SPEED-AT-CLOSE entries of
`violation_durations`, not the speed samples of the run. -/
def calculate_results (tm : TrialManager) : Option TrialResults :=
  match tm.start_time, tm.end_time with
  | some ts, some te =>
    let avg_speed : ℚ :=
      if tm.violation_durations.isEmpty then 0
      else ((tm.violation_durations.map Prod.snd).sum) / (tm.violation_durations.length : ℚ)
    let avg_violation_duration : ℚ :=
      if tm.violation_durations.isEmpty then 0
      else ((tm.violation_durations.map Prod.fst).sum) / (tm.violation_durations.length : ℚ)
    some { trial_duration := te - ts, avg_speed := avg_speed,
           avg_violation_duration := avg_violation_duration,
           violation_count := tm.violation_count }
  | _, _ => none

/-- Embeds `TrialManager.end_trial` (lines 946-951): deactivate, stamp
`end_time`, compute results, raise the results screen.  It does NOT touch
`violation_start` or `violation_durations`. -/
def end_trial (now : ℚ) (tm : TrialManager) : Option TrialManager :=
  let tm := { tm with trial_active := false, end_time := some now }
  (calculate_results tm).map fun r =>
    { tm with trial_results := some r, display_results := true }

/-- State of `CarlaSimulator` in
src/NSTICampCode/carlatest with time trial copy.py that the trial-run and
speed-tracking code touches (display/network fields are out of scope). -/
structure CarlaSimulator where
  trial_run_active : Bool
  trial_countdown : Bool
  trial_running : Bool
  results_displayed : Bool
  speed_violation_count : ℕ
  speed_exceeded : Bool
  current_violation_start : ℚ
  violation_durations : List ℚ
  max_speed : ℚ
  average_speed : ℚ
  speed_sum : ℚ
  speed_sample_count : ℕ
  trial_timer_start : ℚ
  final_duration : ℚ
  max_speed_limit : ℚ
deriving DecidableEq

/-- Embeds the state mutations of `CarlaSimulator.display_speed`
(lines 164-191): the violation open/close bookkeeping against
`max_speed_limit`, then, while `trial_running`, the accumulation of
`speed_sum`, `speed_sample_count` and `max_speed`.  `speed` is the sampled
speed, `now` the `time.time()` of this frame; rendering is out of scope. -/
def displaySpeedStep (speed now : ℚ) (sim : CarlaSimulator) : CarlaSimulator :=
  let sim :=
    if sim.max_speed_limit < speed then
      if ¬ sim.speed_exceeded then
        { sim with speed_violation_count := sim.speed_violation_count + 1,
                   speed_exceeded := true, current_violation_start := now }
      else sim
    else
      if sim.speed_exceeded then
        { sim with speed_exceeded := false,
                   violation_durations :=
                     sim.violation_durations ++ [now - sim.current_violation_start] }
      else sim
  if sim.trial_running then
    { sim with speed_sum := sim.speed_sum + speed,
               speed_sample_count := sim.speed_sample_count + 1,
               max_speed := max sim.max_speed speed }
  else sim

/-- Embeds the countdown-expiry reset inside `CarlaSimulator.display_countdown`
(lines 248-258): the trial starts running and every aggregate counter is zeroed. -/
def countdownExpiredReset (now : ℚ) (sim : CarlaSimulator) : CarlaSimulator :=
  { sim with trial_countdown := false, trial_running := true,
             trial_timer_start := now, max_speed := 0, average_speed := 0,
             speed_violation_count := 0, violation_durations := [],
             speed_sum := 0, speed_sample_count := 0 }

/-- Folds `displaySpeedStep` over a list of `(speed, now)` samples: the speed
samples a run delivers, one per rendered frame. -/
def runSamples (l : List (ℚ × ℚ)) (sim : CarlaSimulator) : CarlaSimulator :=
  l.foldl (fun sim p => displaySpeedStep p.1 p.2 sim) sim

/-- Embeds the `average_speed` expression of `CarlaSimulator.calculate_results`
(line 498): `self.speed_sum / (self.speed_sample_count if self.speed_sample_count > 0
else 1)` — the guard substitutes divisor 1 when no samples were taken. -/
def average_speed_reported (sim : CarlaSimulator) : ℚ :=
  sim.speed_sum / (if 0 < sim.speed_sample_count then (sim.speed_sample_count : ℚ) else 1)

/-- A demonstration axis mapping: axes 0, 1, 2 and all dampings 1 (each in the
documented range (0, 2]). -/
noncomputable def cfgDemo : AxisMapping :=
  { steering := some 0, throttle := some 1, brake := some 2,
    steering_damping := 1, throttle_damping := 1, brake_damping := 1 }

/-- An axis mapping with `steering_damping = 2`, the top of the documented
damping range (0, 2]. -/
noncomputable def cfgWide : AxisMapping :=
  { steering := some 0, throttle := some 1, brake := some 2,
    steering_damping := 2, throttle_damping := 1, brake_damping := 1 }

/-- A trial manager in the middle of an active run with a violation interval
still open (opened at time 1, speed 50 against the 45 limit). -/
def tmOpen : TrialManager :=
  { trial_active := true, start_time := some 0, end_time := none,
    violation_start := some 1, violation_durations := [], violation_count := 1,
    max_speed := 45, trial_results := none, display_results := false,
    start_screen := false, current_speed := 50, speeding_warning := true,
    max_speed_during_run := 50, min_speed_during_run := some 50 }

/-- `tmOpen` after `end_trial` at time 5: what the embedding computes. -/
def tmOpenEnded : TrialManager :=
  { tmOpen with trial_active := false, end_time := some 5,
                trial_results := some { trial_duration := 5, avg_speed := 0,
                                        avg_violation_duration := 0, violation_count := 1 },
                display_results := true }

/-- A trial manager for an active run with no open violation. -/
def tmActive : TrialManager :=
  { tmInit with trial_active := true, start_time := some 0 }

/-- A `DualControl` transmission state in automatic mode with a fresh control. -/
noncomputable def dcsAuto : DualControlState :=
  { transmission_mode := TransmissionMode.automatic, shifter_mode := false,
    neutral_mode := false, control := ctrl0 }

/-- A key snapshot with no key pressed. -/
def keys0 : KeyState :=
  { up := false, down := false, left := false, right := false,
    w := false, a := false, s := false, d := false, space := false }

/-- Helper: `math.log10` succeeds on a positive argument. -/
theorem mathLog10_pos {a : ℝ} (h : 0 < a) :
    mathLog10 a = some (Real.logb 10 a) := by
  simp [mathLog10, h]

/-- Helper: `math.log10` raises (`none`) on a non-positive argument. -/
theorem mathLog10_nonpos {a : ℝ} (h : a ≤ 0) : mathLog10 a = none := by
  simp [mathLog10, not_lt.mpr h]

/-- Helper: one `display_speed` sample during a running trial adds the sample to
`speed_sum`, bumps `speed_sample_count`, and keeps the trial running. -/
theorem displaySpeedStep_running (speed now : ℚ) (sim : CarlaSimulator)
    (h : sim.trial_running = true) :
    (displaySpeedStep speed now sim).speed_sample_count = sim.speed_sample_count + 1 ∧
    (displaySpeedStep speed now sim).speed_sum = sim.speed_sum + speed ∧
    (displaySpeedStep speed now sim).trial_running = true := by
  unfold displaySpeedStep
  split_ifs <;> simp [h]

/-- Helper: folding samples over a running trial accumulates exactly the sample
sum and the sample count. -/
theorem runSamples_running (l : List (ℚ × ℚ)) (sim : CarlaSimulator)
    (h : sim.trial_running = true) :
    (runSamples l sim).speed_sample_count = sim.speed_sample_count + l.length ∧
    (runSamples l sim).speed_sum = sim.speed_sum + (l.map Prod.fst).sum ∧
    (runSamples l sim).trial_running = true := by
  induction l generalizing sim with
  | nil => simpa [runSamples] using h
  | cons p t ih =>
    have hs := displaySpeedStep_running p.1 p.2 sim h
    have ht := ih (displaySpeedStep p.1 p.2 sim) hs.2.2
    unfold runSamples at ht ⊢
    simp only [List.foldl_cons, List.map_cons, List.sum_cons, List.length_cons]
    refine ⟨?_, ?_, ht.2.2⟩
    · rw [ht.1, hs.1]; omega
    · rw [ht.2.1, hs.2.1]; ring

/-- Claim C2, counterexample: with a violation interval opened at time 1 still
open, `end_trial` at time 5 leaves the interval list empty — the in-progress
violation is NOT closed with `endTime = now` and is dropped from the list used
for aggregation — and `violation_start` is still set afterwards. -/
theorem C2_counterexample :
    (end_trial 5 tmOpen).map TrialManager.violation_durations = some [] ∧
    (end_trial 5 tmOpen).map TrialManager.violation_start = some (some 1) := by
  constructor <;> decide

/-- Claim C2, amended: `end_trial` never closes an open violation interval:
it leaves `violation_start` set and appends nothing to `violation_durations`,
so an in-progress violation at trial end is silently dropped from the interval
list used for aggregation (it remains reflected only in `violation_count`). -/
theorem C2_amended (now : ℚ) (tm tm2 : TrialManager)
    (h : end_trial now tm = some tm2) :
    tm2.violation_durations = tm.violation_durations ∧
    tm2.violation_start = tm.violation_start ∧
    tm2.violation_count = tm.violation_count := by
  unfold end_trial at h
  rcases Option.map_eq_some'.mp h with ⟨r, _, hb⟩
  subst hb
  exact ⟨rfl, rfl, rfl⟩

/-- Witness for `C2_amended` at the concrete run `tmOpen`, ended at time 5. -/
theorem C2_amended_witness :
    tmOpenEnded.violation_durations = tmOpen.violation_durations ∧
    tmOpenEnded.violation_start = tmOpen.violation_start ∧
    tmOpenEnded.violation_count = tmOpen.violation_count :=
  C2_amended 5 tmOpen tmOpenEnded (by
    unfold end_trial calculate_results
    simp [tmOpen, tmOpenEnded])

/-- Claim C10: `track_speed` while no trial is active only updates the
current-speed display value; every other field of the trial manager — the run
max/min, the open-violation start, the duration list, the violation count, the
speeding-warning flag — is unchanged. -/
theorem C10_track_speed_inactive (speed now : ℚ) (tm : TrialManager)
    (h : tm.trial_active = false) :
    track_speed speed now tm = { tm with current_speed := speed } := by
  unfold track_speed
  simp [h]

/-- Witness for `C10_track_speed_inactive` on the fresh trial manager. -/
theorem C10_witness :
    track_speed 30 7 tmInit = { tmInit with current_speed := 30 } :=
  C10_track_speed_inactive 30 7 tmInit rfl

/-- Claim C4: the per-sample violation bookkeeping of `track_speed` during an
active trial.  Opening: above the limit with no open interval, the interval
opens at `now` and the count increments by exactly one.  Continuing: above the
limit with an interval open, the tracker fields are unchanged.  Closing: at or
below the limit with an interval open at `t`, the interval is closed as the
pair `(now - t, speed)` appended to the list.  Idle: at or below the limit with
none open, the tracker fields are unchanged.  The open interval is the single
optional field `violation_start`, so at most one interval is open at any time. -/
theorem C4_track_speed_cases (speed now : ℚ) (tm : TrialManager)
    (h : tm.trial_active = true) :
    (tm.violation_start = none → tm.max_speed < speed →
      (track_speed speed now tm).violation_start = some now ∧
      (track_speed speed now tm).violation_count = tm.violation_count + 1 ∧
      (track_speed speed now tm).violation_durations = tm.violation_durations) ∧
    (∀ t, tm.violation_start = some t → tm.max_speed < speed →
      (track_speed speed now tm).violation_start = tm.violation_start ∧
      (track_speed speed now tm).violation_count = tm.violation_count ∧
      (track_speed speed now tm).violation_durations = tm.violation_durations) ∧
    (∀ t, tm.violation_start = some t → speed ≤ tm.max_speed →
      (track_speed speed now tm).violation_start = none ∧
      (track_speed speed now tm).violation_durations
        = tm.violation_durations ++ [(now - t, speed)] ∧
      (track_speed speed now tm).violation_count = tm.violation_count) ∧
    (tm.violation_start = none → speed ≤ tm.max_speed →
      (track_speed speed now tm).violation_start = tm.violation_start ∧
      (track_speed speed now tm).violation_count = tm.violation_count ∧
      (track_speed speed now tm).violation_durations = tm.violation_durations) := by
  refine ⟨?_, ?_, ?_, ?_⟩
  · intro hvs hlt
    unfold track_speed
    simp [h, hvs, hlt]
  · intro t hvs hlt
    unfold track_speed
    simp [h, hvs, hlt]
  · intro t hvs hle
    unfold track_speed
    simp [h, hvs, not_lt.mpr hle]
  · intro hvs hle
    unfold track_speed
    simp [h, hvs, not_lt.mpr hle]

/-- Witness for `C4_track_speed_cases`: in the active run `tmActive`
(limit 45, no interval open), a sample of 50 at time 3 opens an interval at 3
and increments the count. -/
theorem C4_witness :
    (track_speed 50 3 tmActive).violation_start = some 3 ∧
    (track_speed 50 3 tmActive).violation_count = tmActive.violation_count + 1 ∧
    (track_speed 50 3 tmActive).violation_durations = tmActive.violation_durations :=
  (C4_track_speed_cases 50 3 tmActive rfl).1 rfl (by decide)

/-- Claim C3, counterexample (Research variant): a finished trial that sampled
one speed of 10 (limit 45, so no violation) reports an average speed of 0,
not `speedSampleSum / speedSampleCount = 10 / 1`: the Research code derives
`avg_speed` from the violation list, not from the speed samples (it keeps no
sample sum or count at all). -/
theorem C3_counterexample :
    ((end_trial 2 (track_speed 10 1 (initiate_trial 0 tmInit))).bind
        TrialManager.trial_results).map TrialResults.avg_speed = some 0 ∧
    (10 : ℚ) / 1 ≠ 0 := by
  constructor
  · decide
  · norm_num

/-- Claim C3, amended (NSTICamp variant, where the sample accumulators exist):
after the countdown reset, a run over any sample list reports
`speed_sum / speed_sample_count` when at least one sample was taken — the mean
of the samples — and `speed_sum / 1 = 0` when no sample was taken, the guard
`count if count > 0 else 1` avoiding any division by zero. -/
theorem C3_amended (l : List (ℚ × ℚ)) (sim : CarlaSimulator) (now : ℚ) :
    (runSamples l (countdownExpiredReset now sim)).speed_sample_count = l.length ∧
    (runSamples l (countdownExpiredReset now sim)).speed_sum = (l.map Prod.fst).sum ∧
    average_speed_reported (runSamples l (countdownExpiredReset now sim))
      = if l.length = 0 then 0 else (l.map Prod.fst).sum / (l.length : ℚ) := by
  obtain ⟨h1, h2, _⟩ := runSamples_running l (countdownExpiredReset now sim) rfl
  have hc : (runSamples l (countdownExpiredReset now sim)).speed_sample_count
      = l.length := by
    rw [h1]
    show 0 + l.length = l.length
    omega
  have hs : (runSamples l (countdownExpiredReset now sim)).speed_sum
      = (l.map Prod.fst).sum := by
    rw [h2]
    show (0 : ℚ) + _ = _
    ring
  refine ⟨hc, hs, ?_⟩
  unfold average_speed_reported
  rw [hc, hs]
  rcases Nat.eq_zero_or_pos l.length with hz | hp
  · have hnil : l = [] := List.length_eq_zero.mp hz
    subst hnil
    simp
  · rw [if_pos hp, if_neg (Nat.pos_iff_ne_zero.mp hp)]

/-- Claim C8: from `automatic` mode, three `K_m` cycle commands pass through
`manual`, then `automatic_shifter`, and return to `automatic`, with the gear
unchanged throughout (the handler never touches the gear). -/
theorem C8_cycle_three (st : DualControlState)
    (h : st.transmission_mode = TransmissionMode.automatic) :
    (cycleTransmissionMode st).transmission_mode = TransmissionMode.manual ∧
    (cycleTransmissionMode (cycleTransmissionMode st)).transmission_mode
      = TransmissionMode.automatic_shifter ∧
    (cycleTransmissionMode (cycleTransmissionMode (cycleTransmissionMode st))).transmission_mode
      = TransmissionMode.automatic ∧
    (cycleTransmissionMode (cycleTransmissionMode (cycleTransmissionMode st))).control.gear
      = st.control.gear := by
  simp [cycleTransmissionMode, h]

/-- Witness for `C8_cycle_three` at the concrete automatic-mode state `dcsAuto`. -/
theorem C8_witness :
    (cycleTransmissionMode dcsAuto).transmission_mode = TransmissionMode.manual ∧
    (cycleTransmissionMode (cycleTransmissionMode dcsAuto)).transmission_mode
      = TransmissionMode.automatic_shifter ∧
    (cycleTransmissionMode (cycleTransmissionMode (cycleTransmissionMode dcsAuto))).transmission_mode
      = TransmissionMode.automatic ∧
    (cycleTransmissionMode (cycleTransmissionMode (cycleTransmissionMode dcsAuto))).control.gear
      = dcsAuto.control.gear :=
  C8_cycle_three dcsAuto rfl

/-- Claim C9: every control the per-frame vehicle path actually emits (the
non-autopilot `parse_events` branch ending in
`self._control.reverse = self._control.gear < 0` before `apply_control`)
satisfies `reverse = (gear < 0)`, whatever the key and wheel handlers did to
the gear earlier in the frame; when the wheel path raises, no control is
emitted at all and the property is vacuous. -/
theorem C9_reverse_matches_gear (keys : KeyState) (milliseconds : ℝ)
    (joystick : Option (List ℝ)) (cfg : AxisMapping) (neutralMode : Bool)
    (steerCache : ℝ) (c : VehicleControl) :
    ((parseEventsVehicleFrame keys milliseconds joystick cfg neutralMode steerCache c).all
      fun p => p.2.reverse == decide (p.2.gear < 0)) = true := by
  unfold parseEventsVehicleFrame
  cases joystick with
  | none => simp [setReverseFromGear]
  | some js =>
    cases hpw : parseVehicleWheel js cfg neutralMode
        (parseVehicleKeys keys milliseconds neutralMode steerCache c).2 with
    | none => simp [hpw]
    | some c2 => simp [hpw, setReverseFromGear]

/-- Claim C5, counterexample: with axes 0/1/2 configured but a device reporting
a single axis, `_parse_vehicle_wheel` raises `IndexError` (modelled `none`)
instead of resolving the missing axes to neutral. -/
theorem C5_counterexample :
    parseVehicleWheel [0] cfgDemo false ctrl0 = none := by
  rfl

/-- Claim C5, amended: a configured axis index at or beyond the device's
reported axis count makes the wheel path raise an uncaught `IndexError`
(`none`) rather than resolve to neutral; with no gamepad present the wheel
path is skipped entirely, so the frame always emits a control and never
throws. -/
theorem C5_amended (keys : KeyState) (milliseconds : ℝ) (cfg : AxisMapping)
    (neutralMode : Bool) (steerCache : ℝ) (c : VehicleControl)
    (js : List ℝ) (sa : ℕ)
    (hsa : cfg.steering = some sa) (hta : cfg.throttle.isSome = true)
    (hba : cfg.brake.isSome = true) (hout : js.length ≤ sa) :
    parseVehicleWheel js cfg neutralMode c = none ∧
    (parseEventsVehicleFrame keys milliseconds none cfg neutralMode steerCache c).isSome
      = true := by
  obtain ⟨ta, hta2⟩ := Option.isSome_iff_exists.mp hta
  obtain ⟨ba, hba2⟩ := Option.isSome_iff_exists.mp hba
  have hget : js.get? sa = none := List.get?_eq_none.mpr hout
  constructor
  · simp only [List.get?_eq_getElem?] at hget
    rcases hty : js[ta]? with _ | tx <;> rcases hby : js[ba]? with _ | bx <;>
      simp [parseVehicleWheel, hsa, hta2, hba2, hget, hty, hby]
  · simp [parseEventsVehicleFrame]

/-- Witness for `C5_amended`: a wheel with no axes at all, steering configured
on axis 0; keyboard-only frames still emit a control. -/
theorem C5_witness :
    parseVehicleWheel [] cfgDemo false ctrl0 = none ∧
    (parseEventsVehicleFrame keys0 0 none cfgDemo false 0 ctrl0).isSome = true :=
  C5_amended keys0 0 cfgDemo false 0 ctrl0 [] 0 rfl rfl rfl (Nat.le_refl 0)

/-- Claim C7, counterexample: the source takes `math.log10(-0.7*x + 1.4)` with
no epsilon clamp, so an out-of-range upstream pedal value `x = 2` makes the
argument 0 and the wheel path hits a logarithm domain error (`none`). -/
theorem C7_counterexample :
    parseVehicleWheel [0, 2, 0] cfgDemo false ctrl0 = none := by
  norm_num [parseVehicleWheel, cfgDemo, mathLog10]

/-- Claim C7, amended: the pedal computation does NOT clamp the logarithm's
argument to an epsilon: for an in-range axis value `x ∈ [-1, 1]` the argument
`-0.7·x + 1.4` is positive and `math.log10` succeeds, but any upstream value
with `-0.7·x + 1.4 ≤ 0` (i.e. `x ≥ 2`) reaches a logarithm domain error. -/
theorem C7_amended (x : ℝ) :
    (-1 ≤ x → x ≤ 1 →
      mathLog10 (-0.7 * x + 1.4) = some (Real.logb 10 (-0.7 * x + 1.4))) ∧
    (-0.7 * x + 1.4 ≤ 0 → mathLog10 (-0.7 * x + 1.4) = none) := by
  constructor
  · intro h1 h2
    exact mathLog10_pos (by nlinarith)
  · intro h
    exact mathLog10_nonpos h

/-- Witness for `C7_amended` at `x = 0` (in range, log succeeds) and `x = 2`
(out of range, domain error). -/
theorem C7_witness :
    mathLog10 (-0.7 * (0 : ℝ) + 1.4)
      = some (Real.logb 10 (-0.7 * (0 : ℝ) + 1.4)) ∧
    mathLog10 (-0.7 * (2 : ℝ) + 1.4) = none :=
  ⟨(C7_amended 0).1 (by norm_num) (by norm_num), (C7_amended 2).2 (by norm_num)⟩

/-- Claim C1, counterexample: at raw axis `x = 1 ∈ [-1,1]` and damping
`d = 2 ∈ (0,2]`, the wheel path writes `2·tan(1.1)` into the steer field;
that value exceeds 1, so it lies outside `[-1,1]` and differs from the
clamped `steer_spec 1 2` the claim asserts. -/
theorem C1_counterexample :
    (parseVehicleWheel [1, 0, 0] cfgWide false ctrl0).map VehicleControl.steer
      = some (2 * Real.tan (1.1 * 1)) ∧
    1 < 2 * Real.tan (1.1 * 1) ∧
    2 * Real.tan (1.1 * 1) ≠ steer_spec 1 2 := by
  have htan : (1 : ℝ) < Real.tan 1.1 := by
    have hpi : (1.1 : ℝ) < Real.pi / 2 := by
      have h3 := Real.pi_gt_three
      linarith
    have := Real.lt_tan (by norm_num) hpi
    linarith
  have h2 : (1 : ℝ) < 2 * Real.tan (1.1 * 1) := by
    rw [mul_one]
    linarith
  refine ⟨?_, h2, ?_⟩
  · norm_num [parseVehicleWheel, cfgWide, mathLog10]
  · have hle : steer_spec 1 2 ≤ 1 := max_le (by norm_num) (min_le_left _ _)
    intro hEq
    rw [hEq] at h2
    exact absurd h2 (not_lt.mpr hle)

/-- Claim C1, amended: the wheel path applies NO clamp to the steering
command: whenever `_parse_vehicle_wheel` emits a control, its steer field is
exactly `steering_damping · tan(1.1 · x)` for the raw steering-axis value `x`,
which (per `C1_counterexample`) can leave `[-1,1]`. -/
theorem C1_amended (js : List ℝ) (cfg : AxisMapping) (neutralMode : Bool)
    (c : VehicleControl) (sa : ℕ) (x : ℝ)
    (hsa : cfg.steering = some sa) (hta : cfg.throttle.isSome = true)
    (hba : cfg.brake.isSome = true) (hx : js.get? sa = some x)
    (hres : (parseVehicleWheel js cfg neutralMode c).isSome = true) :
    (parseVehicleWheel js cfg neutralMode c).map VehicleControl.steer
      = some (cfg.steering_damping * Real.tan (1.1 * x)) := by
  obtain ⟨ta, hta2⟩ := Option.isSome_iff_exists.mp hta
  obtain ⟨ba, hba2⟩ := Option.isSome_iff_exists.mp hba
  simp only [List.get?_eq_getElem?] at hx
  rcases hty : js[ta]? with _ | tx <;> rcases hby : js[ba]? with _ | bx <;>
    simp [parseVehicleWheel, hsa, hta2, hba2, hx, hty, hby] at hres ⊢
  rcases hlt : mathLog10 (-(0.7 * tx) + 1.4) with _ | lt <;>
    rcases hlb : mathLog10 (-(0.7 * bx) + 1.4) with _ | lb <;>
    simp [hlt, hlb] at hres ⊢

/-- Witness for `C1_amended`: with axes 0/1/2 on a three-axis device all at
rest, the emitted steer is `steering_damping · tan(1.1 · 0)`. -/
theorem C1_amended_witness :
    (parseVehicleWheel [0, 0, 0] cfgDemo false ctrl0).map VehicleControl.steer
      = some (cfgDemo.steering_damping * Real.tan (1.1 * 0)) :=
  C1_amended [0, 0, 0] cfgDemo false ctrl0 0 0 rfl rfl rfl rfl
    (by norm_num [parseVehicleWheel, cfgDemo, mathLog10])

/-- Claim C6: for in-range pedal axis values `x ∈ [-1,1]` and dampings in
(0,2], the wheel path computes both the throttle and the brake command as the
spec's `pedal` curve — `clamp(d·(1.6 + (2.05·log10(−0.7·x + 1.4) − 1.2)/0.92), 0, 1)`
— so both lie in `[0,1]` (the source's `max(0, min(1, _))` is exactly that
clamp, applied to each pedal with its own damping and axis). -/
theorem C6_pedal_clamped (js : List ℝ) (cfg : AxisMapping) (c : VehicleControl)
    (sa ta ba : ℕ) (sx tx bx : ℝ)
    (hsa : cfg.steering = some sa) (hta : cfg.throttle = some ta)
    (hba : cfg.brake = some ba)
    (hsx : js.get? sa = some sx) (htx : js.get? ta = some tx)
    (hbx : js.get? ba = some bx)
    (htx1 : -1 ≤ tx) (htx2 : tx ≤ 1) (hbx1 : -1 ≤ bx) (hbx2 : bx ≤ 1)
    (hdt1 : 0 < cfg.throttle_damping) (hdt2 : cfg.throttle_damping ≤ 2)
    (hdb1 : 0 < cfg.brake_damping) (hdb2 : cfg.brake_damping ≤ 2) :
    parseVehicleWheel js cfg false c
      = some { c with steer := cfg.steering_damping * Real.tan (1.1 * sx),
                      throttle := pedal_spec tx cfg.throttle_damping,
                      brake := pedal_spec bx cfg.brake_damping } ∧
    0 ≤ pedal_spec tx cfg.throttle_damping ∧ pedal_spec tx cfg.throttle_damping ≤ 1 ∧
    0 ≤ pedal_spec bx cfg.brake_damping ∧ pedal_spec bx cfg.brake_damping ≤ 1 := by
  have harg1 : (0 : ℝ) < -(0.7 * tx) + 1.4 := by nlinarith
  have harg2 : (0 : ℝ) < -(0.7 * bx) + 1.4 := by nlinarith
  refine ⟨?_, le_max_left _ _, max_le (by norm_num) (min_le_left _ _),
          le_max_left _ _, max_le (by norm_num) (min_le_left _ _)⟩
  simp only [List.get?_eq_getElem?] at hsx htx hbx
  simp [parseVehicleWheel, pedal_spec, hsa, hta, hba, hsx, htx, hbx,
        mathLog10_pos harg1, mathLog10_pos harg2]

/-- Witness for `C6_pedal_clamped`: axes 0/1/2 at rest on a three-axis device
with all dampings 1. -/
theorem C6_witness :
    parseVehicleWheel [0, 0, 0] cfgDemo false ctrl0
      = some { ctrl0 with
               steer := cfgDemo.steering_damping * Real.tan (1.1 * 0),
               throttle := pedal_spec 0 cfgDemo.throttle_damping,
               brake := pedal_spec 0 cfgDemo.brake_damping } ∧
    0 ≤ pedal_spec 0 cfgDemo.throttle_damping ∧
    pedal_spec 0 cfgDemo.throttle_damping ≤ 1 ∧
    0 ≤ pedal_spec 0 cfgDemo.brake_damping ∧
    pedal_spec 0 cfgDemo.brake_damping ≤ 1 :=
  C6_pedal_clamped [0, 0, 0] cfgDemo ctrl0 0 1 2 0 0 0 rfl rfl rfl rfl rfl rfl
    (by norm_num) (by norm_num) (by norm_num) (by norm_num)
    (by norm_num [cfgDemo]) (by norm_num [cfgDemo])
    (by norm_num [cfgDemo]) (by norm_num [cfgDemo])
